import Mathlib

/-!
Verification of the segmentation and geometric-feature engine of the
tabletop-object-detector repository.  The Python sources in src/ are embedded
shallowly: results of external OpenCV calls (connected-component statistics,
contour moments, bounding rectangles) are supplied as inputs, and the
repository's own logic (filtering, dispatch, feature compilation, orientation)
is translated into Lean definitions over exact rationals and reals.
-/

namespace Tabletop

/-- Image moments as the cv2.moments dictionary delivers them: raw moments
m00, m10, m01 and central second-order moments mu20, mu02, mu11, modelled as
exact rationals. -/
structure Moments where
  m00 : ℚ
  m10 : ℚ
  m01 : ℚ
  mu20 : ℚ
  mu02 : ℚ
  mu11 : ℚ
  deriving DecidableEq, Repr

/-- Two-argument arctangent, the mathematical function behind math.atan2: the
argument of the complex number x + y*i, lying in the interval (-pi, pi]. -/
noncomputable def atan2 (y x : ℝ) : ℝ := Complex.arg { re := x, im := y }

/-- Radians-to-degrees conversion, math.degrees. -/
noncomputable def degrees (r : ℝ) : ℝ := r * 180 / Real.pi

/-- FeatureExtractor.calculate_orientation from src/features.py: angle 0 when
mu20 - mu02 is exactly 0, otherwise 0.5 * atan2(2*mu11, mu20 - mu02), and the
angle is converted to degrees. -/
noncomputable def calculate_orientation (m : Moments) : ℝ :=
  degrees (if m.mu20 - m.mu02 = 0 then 0
    else 0.5 * atan2 (2 * (m.mu11 : ℝ)) ((m.mu20 : ℝ) - (m.mu02 : ℝ)))

/-- Python int() applied to a rational: truncation toward zero. -/
def pyInt (q : ℚ) : ℤ := if q < 0 then -(Int.floor (-q)) else Int.floor q

/-- Modelled from the spec: the ambient configuration object (module
config.config, which src imports but which is not among the provided source
files).  Field names mirror the configuration values the source reads:
EXCLUDE_TOP_PERCENT, FILTER_BY_POSITION, FILTER_BY_ASPECT_RATIO,
MIN_ASPECT_RATIO, MAX_ASPECT_RATIO, SEGMENTATION_METHOD, BINARIZATION_METHOD,
MIN_OBJECT_AREA, CONNECTIVITY. -/
structure Config where
  excludeTopPercent : ℚ
  filterByPosition : Bool
  filterByAspectRatio : Bool
  minAspectRatio : ℚ
  maxAspectRatio : ℚ
  segmentationMethod : String
  binarizationMethod : String
  minObjectArea : ℕ
  connectivity : ℕ
  deriving DecidableEq, Repr

/-- One row of the cv2.connectedComponentsWithStats output for one label: the
five stats entries (area, left, top, width, height) and the centroid. -/
structure CCRow where
  area : ℕ
  left : ℤ
  top : ℤ
  width : ℕ
  height : ℕ
  cx : ℚ
  cy : ℚ
  deriving DecidableEq, Repr

/-- A filtered_reasons entry, abstracting the f-string built by the source as
a tag carrying the interpolated data (object index and offending value). -/
inductive RejectReason where
  | tooSmall (i : ℕ) (area : ℕ)
  | inTopRegion (i : ℕ) (y : ℚ)
  | elongated (i : ℕ) (ar : ℚ)
  deriving DecidableEq, Repr

/-- The dict appended to valid_objects in segment_connected_components. -/
structure ValidObject where
  label_id : ℕ
  area : ℕ
  left : ℤ
  top : ℤ
  width : ℕ
  height : ℕ
  centroid_x : ℚ
  centroid_y : ℚ
  deriving DecidableEq, Repr

/-- exclude_top_pixels = int(image_height * (config.EXCLUDE_TOP_PERCENT / 100))
from src/segmentation.py. -/
def excludeTopPixels (cfg : Config) (imageHeight : ℕ) : ℤ :=
  pyInt ((imageHeight : ℚ) * (cfg.excludeTopPercent / 100))

/-- The body of the filtering loop in segment_connected_components: the first
failing criterion in source order (minimum area, then position, then aspect
ratio), or none when the region passes every filter. -/
def filterDecision (cfg : Config) (minArea : ℕ) (excludeTop : ℤ) (i : ℕ)
    (r : CCRow) : Option RejectReason :=
  if r.area < minArea then some (RejectReason.tooSmall i r.area)
  else if cfg.filterByPosition = true ∧ r.cy < (excludeTop : ℚ) then
    some (RejectReason.inTopRegion i r.cy)
  else if cfg.filterByAspectRatio = true ∧ 0 < r.height ∧
      ((r.width : ℚ) / (r.height : ℚ) > cfg.maxAspectRatio ∨
        (r.width : ℚ) / (r.height : ℚ) < cfg.minAspectRatio) then
    some (RejectReason.elongated i ((r.width : ℚ) / (r.height : ℚ)))
  else none

/-- The valid-object record built for label i from its stats row. -/
def mkValid (i : ℕ) (r : CCRow) : ValidObject :=
  { label_id := i, area := r.area, left := r.left, top := r.top,
    width := r.width, height := r.height, centroid_x := r.cx, centroid_y := r.cy }

/-- The branch taken at the end of one filtering-loop iteration: when the
decision is a rejection the object list is left alone (the reason list gets
the entry), otherwise the valid-object record is appended. -/
def keepAccepted {γ β : Type} (d : Option γ) (b : β) : Option β :=
  match d with
  | some _ => none
  | none => some b

/-- The dictionary segment_connected_components returns (its label_map,
all_stats and all_centroids entries merely pass the inputs through and are
omitted). -/
structure CCResult where
  num_objects : ℕ
  objects : List ValidObject
  filtered_reasons : List RejectReason
  deriving DecidableEq, Repr

/-- ObjectSegmenter.segment_connected_components from src/segmentation.py, the
cv2.connectedComponentsWithStats output being supplied as numLabels plus a
per-label row function.  The loop over range(1, num_labels) appends each label
either to valid_objects or to filtered_reasons according to the first failing
filter; cfg is the ambient config.config module the method imports. -/
def segment_connected_components (cfg : Config) (minArea : ℕ)
    (imageHeight : ℕ) (numLabels : ℕ) (row : ℕ → CCRow) : CCResult :=
  let et := excludeTopPixels cfg imageHeight
  let idxs := List.range' 1 (numLabels - 1)
  let objects := idxs.filterMap fun i =>
    keepAccepted (filterDecision cfg minArea et i (row i)) (mkValid i (row i))
  let reasons := idxs.filterMap fun i => filterDecision cfg minArea et i (row i)
  { num_objects := objects.length, objects := objects, filtered_reasons := reasons }

/-- The raw region list the filtering loop ranges over: one record per label
1 .. num_labels - 1, in label order, before any filtering. -/
def rawRegions (numLabels : ℕ) (row : ℕ → CCRow) : List ValidObject :=
  (List.range' 1 (numLabels - 1)).map fun i => mkValid i (row i)

/-- One traced contour as cv2 delivers it, abstracted by the values the source
reads from it: cv2.contourArea, cv2.moments, cv2.boundingRect and
cv2.arcLength. -/
structure Contour where
  contourArea : ℚ
  moments : Moments
  left : ℤ
  top : ℤ
  width : ℕ
  height : ℕ
  arcLength : ℚ
  deriving DecidableEq, Repr

/-- The dict appended to valid_objects in segment_contours. -/
structure ContourObject where
  contour_id : ℕ
  contour : Contour
  area : ℤ
  left : ℤ
  top : ℤ
  width : ℕ
  height : ℕ
  centroid_x : ℚ
  centroid_y : ℚ
  moments : Moments
  deriving DecidableEq, Repr

/-- ObjectSegmenter.segment_contours from src/segmentation.py: enumerate the
traced contours, skip those whose contourArea is below min_area and those with
zero m00, and build the valid-object record for the rest (contour_id is the
index in the raw traced list, the centroid is m10/m00 and m01/m00, and the
area is int(area)). -/
def segment_contours (minArea : ℕ) (contours : List Contour) :
    List ContourObject :=
  contours.enum.filterMap fun p =>
    if p.2.contourArea < (minArea : ℚ) then none
    else if p.2.moments.m00 = 0 then none
    else some
      { contour_id := p.1, contour := p.2, area := pyInt p.2.contourArea,
        left := p.2.left, top := p.2.top, width := p.2.width,
        height := p.2.height,
        centroid_x := p.2.moments.m10 / p.2.moments.m00,
        centroid_y := p.2.moments.m01 / p.2.moments.m00,
        moments := p.2.moments }

/-- The per-object feature dict built by FeatureExtractor in src/features.py;
the perimeter key exists only on the contour path, modelled as an Option. -/
structure FeatureRecord where
  id : ℕ
  centroid : ℚ × ℚ
  area : ℤ
  width : ℕ
  height : ℕ
  orientation : ℝ
  bbox : ℤ × ℤ × ℕ × ℕ
  aspect_ratio : ℚ
  perimeter : Option ℚ

/-- FeatureExtractor.extract_from_connected_components from src/features.py;
the cv2.moments result for each label mask is supplied as a function of the
label id. -/
noncomputable def extract_from_connected_components (mom : ℕ → Moments)
    (objects : List ValidObject) : List FeatureRecord :=
  objects.map fun o =>
    { id := o.label_id, centroid := (o.centroid_x, o.centroid_y),
      area := (o.area : ℤ), width := o.width, height := o.height,
      orientation := calculate_orientation (mom o.label_id),
      bbox := (o.left, o.top, o.width, o.height),
      aspect_ratio := if 0 < o.height then (o.width : ℚ) / (o.height : ℚ) else 0,
      perimeter := none }

/-- FeatureExtractor.extract_from_contours from src/features.py; the id is
contour_id + 1 and the perimeter is cv2.arcLength of the stored contour. -/
noncomputable def extract_from_contours (objects : List ContourObject) :
    List FeatureRecord :=
  objects.map fun o =>
    { id := o.contour_id + 1, centroid := (o.centroid_x, o.centroid_y),
      area := o.area, width := o.width, height := o.height,
      orientation := calculate_orientation o.moments,
      bbox := (o.left, o.top, o.width, o.height),
      aspect_ratio := if 0 < o.height then (o.width : ℚ) / (o.height : ℚ) else 0,
      perimeter := some o.contour.arcLength }

/-- The two binarization strategies ImagePreprocessor.preprocess recognizes. -/
inductive BinarizeMethod where
  | otsu
  | adaptive
  deriving DecidableEq, Repr

/-- The binarization dispatch inside ImagePreprocessor.preprocess from
src/preprocess.py: otsu and adaptive are recognized, and any other name raises
ValueError with the message recorded here. -/
def binarize_dispatch (method : String) : Except String BinarizeMethod :=
  if method = "otsu" then Except.ok BinarizeMethod.otsu
  else if method = "adaptive" then Except.ok BinarizeMethod.adaptive
  else Except.error ("Unknown binarization method: " ++ method)

/-- The two segmentation strategies of ObjectSegmenter. -/
inductive SegMethod where
  | connectedComponents
  | contours
  deriving DecidableEq, Repr

/-- The segmentation dispatch in run_detection_pipeline from main.py: a plain
if/else on config.SEGMENTATION_METHOD with no error branch, so every name
other than connected_components selects the contour strategy. -/
def segmentation_dispatch (method : String) : SegMethod :=
  if method = "connected_components" then SegMethod.connectedComponents
  else SegMethod.contours

/-- The three inclusion criteria of the region filter as a predicate on the
statistics of one region: minimum area, position exclusion when enabled, and
the aspect-ratio band when enabled and the height is positive. -/
def meetsAllCriteria (cfg : Config) (minArea : ℕ) (excludeTop : ℤ)
    (area : ℚ) (cy : ℚ) (w h : ℕ) : Prop :=
  (minArea : ℚ) ≤ area ∧
  (cfg.filterByPosition = true → (excludeTop : ℚ) ≤ cy) ∧
  (cfg.filterByAspectRatio = true → 0 < h →
    cfg.minAspectRatio ≤ (w : ℚ) / (h : ℚ) ∧
      (w : ℚ) / (h : ℚ) ≤ cfg.maxAspectRatio)

instance (cfg : Config) (minArea : ℕ) (excludeTop : ℤ) (area cy : ℚ)
    (w h : ℕ) : Decidable (meetsAllCriteria cfg minArea excludeTop area cy w h) :=
  decidable_of_iff
    ((minArea : ℚ) ≤ area ∧
      (cfg.filterByPosition = true → (excludeTop : ℚ) ≤ cy) ∧
      (cfg.filterByAspectRatio = true → 0 < h →
        cfg.minAspectRatio ≤ (w : ℚ) / (h : ℚ) ∧
          (w : ℚ) / (h : ℚ) ≤ cfg.maxAspectRatio)) Iff.rfl

/-- The keep-test of segment_contours: contourArea at least min_area and a
nonzero zeroth moment. -/
def contourKeptB (minArea : ℕ) (c : Contour) : Bool :=
  if c.contourArea < (minArea : ℚ) then false
  else if c.moments.m00 = 0 then false
  else true

/-- An all-zero moments dictionary, as produced for an empty (zero-mass)
mask. -/
def mZero : Moments :=
  { m00 := 0, m10 := 0, m01 := 0, mu20 := 0, mu02 := 0, mu11 := 0 }

/-- A configuration with both optional filters enabled, used to instantiate
the filter theorems at concrete inputs. -/
def cfgBoth : Config :=
  { excludeTopPercent := 20, filterByPosition := true,
    filterByAspectRatio := true, minAspectRatio := 1 / 10, maxAspectRatio := 5,
    segmentationMethod := "connected_components", binarizationMethod := "otsu",
    minObjectArea := 500, connectivity := 8 }

/-- A stats row with tiny area and an out-of-band aspect ratio. -/
def rowSmall : CCRow :=
  { area := 10, left := 0, top := 0, width := 10, height := 1, cx := 5, cy := 100 }

/-- A stats row with ample area whose centroid lies in the top band. -/
def rowTop : CCRow :=
  { area := 1000, left := 50, top := 0, width := 50, height := 20, cx := 75, cy := 5 }

/-- The configuration cfgBoth with the position filter switched off. -/
def cfgPosOff : Config := { cfgBoth with filterByPosition := false }

/-- The configuration cfgBoth with a different segmentation-method name, a
field the region filter never reads. -/
def cfgOtherMethod : Config := { cfgBoth with segmentationMethod := "contours" }

/-- A traced contour whose centroid lies in the top exclusion band of the
configuration cfgBoth but whose area and mass pass the contour-path checks. -/
def cTop : Contour :=
  { contourArea := 1000,
    moments := { m00 := 1000, m10 := 75000, m01 := 5000,
                 mu20 := 3, mu02 := 1, mu11 := 0 },
    left := 50, top := 0, width := 50, height := 20, arcLength := 140 }

/-- The object record segment_contours builds for cTop at index 0. -/
def cTopObj : ContourObject :=
  { contour_id := 0, contour := cTop, area := 1000, left := 50, top := 0,
    width := 50, height := 20, centroid_x := 75, centroid_y := 5,
    moments := cTop.moments }

/-- A stats row that passes all three criteria of cfgBoth on a
200-pixel-high image. -/
def rowMid : CCRow :=
  { area := 1000, left := 30, top := 50, width := 50, height := 20,
    cx := 55, cy := 60 }

/-- A traced contour below the default minimum area (it is dropped by the
contour path). -/
def cSmall : Contour :=
  { contourArea := 10,
    moments := { m00 := 10, m10 := 50, m01 := 50,
                 mu20 := 0, mu02 := 0, mu11 := 0 },
    left := 5, top := 5, width := 4, height := 4, arcLength := 12 }

/-- The object record segment_contours builds for a kept contour at a given
enumeration index. -/
def buildContourObj (p : ℕ × Contour) : ContourObject :=
  { contour_id := p.1, contour := p.2, area := pyInt p.2.contourArea,
    left := p.2.left, top := p.2.top, width := p.2.width, height := p.2.height,
    centroid_x := p.2.moments.m10 / p.2.moments.m00,
    centroid_y := p.2.moments.m01 / p.2.moments.m00,
    moments := p.2.moments }

/-- C1: for every moments input, calculate_orientation returns 0 degrees when
mu20 equals mu02 exactly (which covers the all-zero degenerate zero-mass
dictionary, and the function is total, so nothing is raised), and otherwise
returns 0.5 * atan2(2*mu11, mu20 - mu02) converted to degrees. -/
theorem c1_orientation_formula (m : Moments) :
    (m.mu20 = m.mu02 → calculate_orientation m = 0) ∧
    (m.mu20 ≠ m.mu02 → calculate_orientation m =
      degrees (0.5 * atan2 (2 * (m.mu11 : ℝ)) ((m.mu20 : ℝ) - (m.mu02 : ℝ)))) := by
  constructor
  · intro h
    have hz : m.mu20 - m.mu02 = 0 := sub_eq_zero_of_eq h
    simp [calculate_orientation, hz, degrees]
  · intro h
    have hz : m.mu20 - m.mu02 ≠ 0 := sub_ne_zero_of_ne h
    simp [calculate_orientation, hz]

/-- Concrete instance of c1_orientation_formula: the all-zero (zero-mass)
moments dictionary yields orientation 0 degrees. -/
theorem c1_orientation_formula_witness : calculate_orientation mZero = 0 :=
  (c1_orientation_formula mZero).1 rfl

/-- C5: the orientation produced by calculate_orientation always lies in the
half-open interval (-90, 90] degrees. -/
theorem c5_orientation_range (m : Moments) :
    -90 < calculate_orientation m ∧ calculate_orientation m ≤ 90 := by
  have hpi : (0 : ℝ) < Real.pi := Real.pi_pos
  unfold calculate_orientation degrees
  set x : ℝ := if m.mu20 - m.mu02 = 0 then 0
    else 0.5 * atan2 (2 * (m.mu11 : ℝ)) ((m.mu20 : ℝ) - (m.mu02 : ℝ)) with hx
  have hb : -(Real.pi / 2) < x ∧ x ≤ Real.pi / 2 := by
    rw [hx]
    split
    · constructor <;> linarith
    · have h1 := Complex.neg_pi_lt_arg
        { re := (m.mu20 : ℝ) - (m.mu02 : ℝ), im := 2 * (m.mu11 : ℝ) }
      have h2 := Complex.arg_le_pi
        { re := (m.mu20 : ℝ) - (m.mu02 : ℝ), im := 2 * (m.mu11 : ℝ) }
      unfold atan2
      constructor <;> linarith
  constructor
  · rw [lt_div_iff₀ hpi]
    nlinarith [hb.1]
  · rw [div_le_iff₀ hpi]
    nlinarith [hb.2]

/-- C2: the filter evaluates minimum area, then position, then aspect ratio,
stopping at the first failure: a region below the area threshold is reported
too-small whatever the other criteria would say, and in particular never with
the aspect-ratio reason; a region passing area whose centroid lies in the top
band (with the position filter on) gets the position reason; and a region
passing area and position that falls outside the enabled aspect-ratio band
gets the elongated reason. -/
theorem c2_filter_order (cfg : Config) (minArea : ℕ) (et : ℤ) (i : ℕ)
    (r : CCRow) :
    (r.area < minArea →
      filterDecision cfg minArea et i r = some (RejectReason.tooSmall i r.area) ∧
      ∀ q, filterDecision cfg minArea et i r ≠ some (RejectReason.elongated i q)) ∧
    (minArea ≤ r.area → cfg.filterByPosition = true → r.cy < (et : ℚ) →
      filterDecision cfg minArea et i r = some (RejectReason.inTopRegion i r.cy)) ∧
    (minArea ≤ r.area → (cfg.filterByPosition = true → (et : ℚ) ≤ r.cy) →
      cfg.filterByAspectRatio = true → 0 < r.height →
      ((r.width : ℚ) / (r.height : ℚ) > cfg.maxAspectRatio ∨
        (r.width : ℚ) / (r.height : ℚ) < cfg.minAspectRatio) →
      filterDecision cfg minArea et i r =
        some (RejectReason.elongated i ((r.width : ℚ) / (r.height : ℚ)))) := by
  refine ⟨fun h => ?_, fun h hp hy => ?_, fun h hpos har hh hband => ?_⟩
  · rw [filterDecision, if_pos h]
    exact ⟨rfl, fun q hq => by simp at hq⟩
  · have h1 : ¬ r.area < minArea := not_lt.mpr h
    rw [filterDecision, if_neg h1, if_pos ⟨hp, hy⟩]
  · have h1 : ¬ r.area < minArea := not_lt.mpr h
    have h2 : ¬ (cfg.filterByPosition = true ∧ r.cy < (et : ℚ)) := by
      rintro ⟨hc, hlt⟩
      exact absurd hlt (not_lt.mpr (hpos hc))
    rw [filterDecision, if_neg h1, if_neg h2, if_pos ⟨har, hh, hband⟩]

/-- Concrete instance of c2_filter_order: a region failing both the area and
the aspect-ratio criteria is reported too-small (aspect ratio 10 is outside
the band of cfgBoth), and a large region in the top band is reported with the
position reason. -/
theorem c2_filter_order_witness :
    filterDecision cfgBoth 500 40 1 rowSmall =
      some (RejectReason.tooSmall 1 10) ∧
    filterDecision cfgBoth 500 40 1 rowSmall ≠
      some (RejectReason.elongated 1 10) ∧
    filterDecision cfgBoth 500 40 2 rowTop =
      some (RejectReason.inTopRegion 2 5) := by
  refine ⟨((c2_filter_order cfgBoth 500 40 1 rowSmall).1 (by decide)).1, ?_, ?_⟩
  · exact ((c2_filter_order cfgBoth 500 40 1 rowSmall).1 (by decide)).2 10
  · exact (c2_filter_order cfgBoth 500 40 2 rowTop).2.1 (by decide) rfl (by decide)

/-- C3 counterexample: the segmentation dispatch in run_detection_pipeline
does not raise on the unrecognized method name watershed; it silently proceeds
with the contour strategy. -/
theorem c3_counterexample :
    segmentation_dispatch "watershed" = SegMethod.contours ∧
    "watershed" ≠ "connected_components" ∧ "watershed" ≠ "contours" := by
  refine ⟨rfl, by decide, by decide⟩

/-- C3 amended: an unrecognized binarization method name raises a ValueError
carrying the source's message and is never silently defaulted, but an
unrecognized segmentation method name does not raise: the pipeline silently
proceeds with the contour strategy for every name other than
connected_components. -/
theorem c3_amended_dispatch (method : String) :
    (method ≠ "otsu" → method ≠ "adaptive" →
      binarize_dispatch method =
        Except.error ("Unknown binarization method: " ++ method)) ∧
    (method ≠ "connected_components" →
      segmentation_dispatch method = SegMethod.contours) := by
  constructor
  · intro h1 h2
    rw [binarize_dispatch, if_neg h1, if_neg h2]
  · intro h
    rw [segmentation_dispatch, if_neg h]

/-- Concrete instance of c3_amended_dispatch at the method name threshold. -/
theorem c3_amended_dispatch_witness :
    binarize_dispatch "threshold" =
      Except.error ("Unknown binarization method: " ++ "threshold") ∧
    segmentation_dispatch "threshold" = SegMethod.contours :=
  ⟨(c3_amended_dispatch "threshold").1 (by decide) (by decide),
    (c3_amended_dispatch "threshold").2 (by decide)⟩

/-- C7: on both extraction paths the compiled aspect ratio is width/height
when the height is positive and exactly 0 when the height is 0; the field is
computed afresh from the region dimensions and is always defined. -/
theorem c7_aspect_ratio_recomputed (mom : ℕ → Moments)
    (objs : List ValidObject) (cobjs : List ContourObject) :
    (extract_from_connected_components mom objs).map FeatureRecord.aspect_ratio =
      objs.map (fun o => if 0 < o.height then (o.width : ℚ) / (o.height : ℚ) else 0) ∧
    (extract_from_contours cobjs).map FeatureRecord.aspect_ratio =
      cobjs.map (fun o => if 0 < o.height then (o.width : ℚ) / (o.height : ℚ) else 0) := by
  constructor <;>
    simp [extract_from_connected_components, extract_from_contours,
      List.map_map, Function.comp]

/-- A filterMap whose function keeps an element exactly when a test returns
none is a sublist of mapping every element. -/
theorem filterMap_keepAccepted_sublist_map {α β γ : Type} (l : List α)
    (d : α → Option γ) (g : α → β) :
    List.Sublist (l.filterMap fun a => keepAccepted (d a) (g a)) (l.map g) := by
  induction l with
  | nil => simp
  | cons a t ih =>
    cases hd : d a
    · simpa [List.filterMap_cons, keepAccepted, hd] using List.Sublist.cons₂ (g a) ih
    · simpa [List.filterMap_cons, keepAccepted, hd] using List.Sublist.cons (g a) ih

/-- C9: the accepted list is a sublist of the raw region list (so it keeps the
raw relative order), the feature-record list preserves exactly the acceptance
order (its identifiers are the accepted label ids in order), and those
identifiers are unique within the invocation. -/
theorem c9_order_preserved_ids_unique (cfg : Config)
    (minArea imageHeight numLabels : ℕ) (row : ℕ → CCRow) (mom : ℕ → Moments) :
    List.Sublist (segment_connected_components cfg minArea imageHeight numLabels row).objects
      (rawRegions numLabels row) ∧
    (extract_from_connected_components mom
        (segment_connected_components cfg minArea imageHeight numLabels row).objects).map
        FeatureRecord.id =
      (segment_connected_components cfg minArea imageHeight numLabels row).objects.map
        ValidObject.label_id ∧
    ((extract_from_connected_components mom
        (segment_connected_components cfg minArea imageHeight numLabels row).objects).map
        FeatureRecord.id).Nodup := by
  have hobj : (segment_connected_components cfg minArea imageHeight numLabels row).objects =
      (List.range' 1 (numLabels - 1)).filterMap fun i =>
        keepAccepted (filterDecision cfg minArea (excludeTopPixels cfg imageHeight) i (row i))
          (mkValid i (row i)) := rfl
  have h1 : List.Sublist
      (segment_connected_components cfg minArea imageHeight numLabels row).objects
      (rawRegions numLabels row) := by
    rw [hobj, rawRegions]
    exact filterMap_keepAccepted_sublist_map (List.range' 1 (numLabels - 1))
      (fun i => filterDecision cfg minArea (excludeTopPixels cfg imageHeight) i (row i))
      (fun i => mkValid i (row i))
  have h2 : (extract_from_connected_components mom
      (segment_connected_components cfg minArea imageHeight numLabels row).objects).map
      FeatureRecord.id =
      (segment_connected_components cfg minArea imageHeight numLabels row).objects.map
      ValidObject.label_id := by
    simp [extract_from_connected_components, List.map_map, Function.comp]
  refine ⟨h1, h2, ?_⟩
  rw [h2]
  have hsub : List.Sublist
      ((segment_connected_components cfg minArea imageHeight numLabels row).objects.map
        ValidObject.label_id)
      ((rawRegions numLabels row).map ValidObject.label_id) :=
    h1.map ValidObject.label_id
  have hraw : (rawRegions numLabels row).map ValidObject.label_id =
      List.range' 1 (numLabels - 1) := by
    simp only [rawRegions, List.map_map]
    exact List.map_id _
  rw [hraw] at hsub
  exact List.Nodup.sublist hsub (List.nodup_range' _ _)

/-- C8 counterexample: with every explicit input of the segmenter fixed (the
min_area parameter and the cv2 statistics of the mask), changing only the
ambient configuration module changes the accepted list and the rejection
reasons, so the filter decision is not a function of the explicit inputs
alone. -/
theorem c8_counterexample :
    segment_connected_components cfgPosOff 500 200 2 (fun _ => rowTop) ≠
      segment_connected_components cfgBoth 500 200 2 (fun _ => rowTop) := by
  have hA : segment_connected_components cfgPosOff 500 200 2 (fun _ => rowTop) =
      { num_objects := 1, objects := [mkValid 1 rowTop], filtered_reasons := [] } := by
    norm_num [segment_connected_components, excludeTopPixels, filterDecision,
      keepAccepted, pyInt, cfgPosOff, cfgBoth, rowTop, List.range',
      List.filterMap_cons, List.filterMap_nil]
  have hB : segment_connected_components cfgBoth 500 200 2 (fun _ => rowTop) =
      { num_objects := 0, objects := [],
        filtered_reasons := [RejectReason.inTopRegion 1 5] } := by
    norm_num [segment_connected_components, excludeTopPixels, filterDecision,
      keepAccepted, pyInt, cfgBoth, rowTop, List.range',
      List.filterMap_cons, List.filterMap_nil]
  rw [hA, hB]
  simp

/-- C8 amended: the filter is deterministic and its decision is a function of
the raw region statistics, the explicit parameters, and the ambient
configuration snapshot; moreover it reads only the five configuration fields
EXCLUDE_TOP_PERCENT, FILTER_BY_POSITION, FILTER_BY_ASPECT_RATIO,
MIN_ASPECT_RATIO and MAX_ASPECT_RATIO, so two configurations agreeing on
those fields yield identical accepted lists and rejection reasons.  The
configuration is, however, read from the ambient module global, not passed as
an explicit parameter. -/
theorem c8_amended_config_dependence (c1 c2 : Config)
    (minArea imageHeight numLabels : ℕ) (row : ℕ → CCRow)
    (hp : c1.excludeTopPercent = c2.excludeTopPercent)
    (h1 : c1.filterByPosition = c2.filterByPosition)
    (h2 : c1.filterByAspectRatio = c2.filterByAspectRatio)
    (h3 : c1.minAspectRatio = c2.minAspectRatio)
    (h4 : c1.maxAspectRatio = c2.maxAspectRatio) :
    segment_connected_components c1 minArea imageHeight numLabels row =
      segment_connected_components c2 minArea imageHeight numLabels row := by
  simp only [segment_connected_components, excludeTopPixels, filterDecision,
    hp, h1, h2, h3, h4]

/-- Concrete instance of c8_amended_config_dependence: two configurations
differing only in SEGMENTATION_METHOD produce identical filter output. -/
theorem c8_amended_config_dependence_witness :
    segment_connected_components cfgBoth 500 200 2 (fun _ => rowTop) =
      segment_connected_components cfgOtherMethod 500 200 2 (fun _ => rowTop) :=
  c8_amended_config_dependence cfgBoth cfgOtherMethod 500 200 2
    (fun _ => rowTop) rfl rfl rfl rfl rfl

/-- The filtering-loop decision accepts a region exactly when the region meets
all three inclusion criteria. -/
theorem filterDecision_none_iff (cfg : Config) (minArea : ℕ) (et : ℤ) (i : ℕ)
    (r : CCRow) :
    filterDecision cfg minArea et i r = none ↔
      meetsAllCriteria cfg minArea et (r.area : ℚ) r.cy r.width r.height := by
  unfold filterDecision meetsAllCriteria
  split_ifs with h1 h2 h3
  · exact iff_of_false (by simp)
      (fun hm => absurd (Nat.cast_le.mp hm.1) (not_le.mpr h1))
  · exact iff_of_false (by simp)
      (fun hm => absurd (hm.2.1 h2.1) (not_le.mpr h2.2))
  · refine iff_of_false (by simp) (fun hm => ?_)
    obtain ⟨har, hh, hb⟩ := h3
    obtain ⟨hlo, hhi⟩ := hm.2.2 har hh
    cases hb with
    | inl hgt => exact absurd hgt (not_lt.mpr hhi)
    | inr hlt => exact absurd hlt (not_lt.mpr hlo)
  · refine iff_of_true rfl ⟨Nat.cast_le.mpr (not_lt.mp h1), ?_, ?_⟩
    · intro hp
      by_contra hy
      exact h2 ⟨hp, not_le.mp hy⟩
    · intro har hh
      constructor
      · by_contra hlo
        exact h3 ⟨har, hh, Or.inr (not_le.mp hlo)⟩
      · by_contra hhi
        exact h3 ⟨har, hh, Or.inl (not_le.mp hhi)⟩

/-- Every object the contour path accepts passed exactly its two checks:
contourArea at least min_area and nonzero zeroth moment. -/
theorem mem_segment_contours (minArea : ℕ) (cs : List Contour)
    (o : ContourObject) (ho : o ∈ segment_contours minArea cs) :
    (minArea : ℚ) ≤ o.contour.contourArea ∧ o.moments.m00 ≠ 0 := by
  rw [segment_contours, List.mem_filterMap] at ho
  obtain ⟨p, -, heq⟩ := ho
  by_cases h1 : p.2.contourArea < (minArea : ℚ)
  · rw [if_pos h1] at heq
    cases heq
  · by_cases h2 : p.2.moments.m00 = 0
    · rw [if_neg h1, if_pos h2] at heq
      cases heq
    · rw [if_neg h1, if_neg h2] at heq
      injection heq with h
      subst h
      exact ⟨not_lt.mp h1, h2⟩

/-- C4 counterexample: with the position filter enabled and a 200-pixel-high
image, the contour path accepts a region whose centroid sits inside the top
exclusion band, so raw regions on that path are not subjected to all three
inclusion criteria of the region filter. -/
theorem c4_counterexample :
    segment_contours 500 [cTop] = [cTopObj] ∧
    cfgBoth.filterByPosition = true ∧
    ¬ meetsAllCriteria cfgBoth 500 (excludeTopPixels cfgBoth 200)
        (cTopObj.area : ℚ) cTopObj.centroid_y cTopObj.width cTopObj.height := by
  refine ⟨?_, rfl, ?_⟩
  · norm_num [segment_contours, List.enum, List.enumFrom, pyInt,
      List.filterMap_cons, List.filterMap_nil, cTop, cTopObj]
  · norm_num [meetsAllCriteria, excludeTopPixels, pyInt, cfgBoth, cTopObj]

/-- C4 amended: on the connected-components path every accepted region has
passed all three inclusion criteria under the ambient configuration, while on
the contour path an accepted region is only guaranteed to have contourArea at
least min_area and a nonzero zeroth moment (the position and aspect-ratio
criteria are not applied there); the two paths share the downstream
compilation, whose records differ only in the perimeter field, absent on the
label-map path and populated on the contour path. -/
theorem c4_amended_paths (cfg : Config) (minArea imageHeight numLabels : ℕ)
    (row : ℕ → CCRow) (cs : List Contour) (mom : ℕ → Moments) :
    (∀ o ∈ (segment_connected_components cfg minArea imageHeight numLabels row).objects,
      meetsAllCriteria cfg minArea (excludeTopPixels cfg imageHeight)
        (o.area : ℚ) o.centroid_y o.width o.height) ∧
    (∀ o ∈ segment_contours minArea cs,
      (minArea : ℚ) ≤ o.contour.contourArea ∧ o.moments.m00 ≠ 0) ∧
    (extract_from_connected_components mom
        (segment_connected_components cfg minArea imageHeight numLabels row).objects).map
      FeatureRecord.perimeter =
      (segment_connected_components cfg minArea imageHeight numLabels row).objects.map
        (fun _ => none) ∧
    (extract_from_contours (segment_contours minArea cs)).map FeatureRecord.perimeter =
      (segment_contours minArea cs).map (fun o => some o.contour.arcLength) := by
  refine ⟨?_, fun o ho => mem_segment_contours minArea cs o ho, ?_, ?_⟩
  · intro o ho
    have hobj : (segment_connected_components cfg minArea imageHeight numLabels row).objects =
        (List.range' 1 (numLabels - 1)).filterMap fun i =>
          keepAccepted
            (filterDecision cfg minArea (excludeTopPixels cfg imageHeight) i (row i))
            (mkValid i (row i)) := rfl
    rw [hobj, List.mem_filterMap] at ho
    obtain ⟨i, _, hk⟩ := ho
    unfold keepAccepted at hk
    cases hd : filterDecision cfg minArea (excludeTopPixels cfg imageHeight) i (row i) with
    | some q => rw [hd] at hk; cases hk
    | none =>
      rw [hd] at hk
      cases hk
      exact (filterDecision_none_iff cfg minArea
        (excludeTopPixels cfg imageHeight) i (row i)).mp hd
  · unfold extract_from_connected_components
    rw [List.map_map]
    rfl
  · unfold extract_from_contours
    rw [List.map_map]
    rfl

/-- Concrete instance of c4_amended_paths: the accepted connected-components
region built from rowMid meets all three criteria, and the accepted contour
object cTopObj passed then area and mass checks of the contour path. -/
theorem c4_amended_paths_witness :
    meetsAllCriteria cfgBoth 500 (excludeTopPixels cfgBoth 200)
      ((mkValid 1 rowMid).area : ℚ) (mkValid 1 rowMid).centroid_y
      (mkValid 1 rowMid).width (mkValid 1 rowMid).height ∧
    ((500 : ℚ) ≤ cTopObj.contour.contourArea ∧ cTopObj.moments.m00 ≠ 0) := by
  constructor
  · refine (c4_amended_paths cfgBoth 500 200 2 (fun _ => rowMid) [cTop]
      (fun _ => mZero)).1 (mkValid 1 rowMid) ?_
    norm_num [segment_connected_components, excludeTopPixels, filterDecision,
      keepAccepted, pyInt, cfgBoth, rowMid, List.range',
      List.filterMap_cons, List.filterMap_nil]
  · refine (c4_amended_paths cfgBoth 500 200 2 (fun _ => rowMid) [cTop]
      (fun _ => mZero)).2.1 cTopObj ?_
    have h : segment_contours 500 [cTop] = [cTopObj] := by
      norm_num [segment_contours, List.enum, List.enumFrom, pyInt,
        List.filterMap_cons, List.filterMap_nil, cTop, cTopObj]
    rw [h]
    exact List.mem_singleton.mpr rfl

/-- A filterMap that keeps elements passing a boolean test and rebuilds them
is the same as filtering and then mapping. -/
theorem filterMap_if_eq_filter_map {α β : Type} (l : List α) (p : α → Bool)
    (g : α → β) :
    (l.filterMap fun a => if p a then some (g a) else none) =
      (l.filter p).map g := by
  induction l with
  | nil => rfl
  | cons a t ih =>
    by_cases h : p a <;>
      simp [List.filterMap_cons, List.filter_cons, h, ih]

/-- segment_contours keeps exactly the enumerated contours passing the
contourKeptB test, building their object records in order. -/
theorem segment_contours_eq_filter (minArea : ℕ) (cs : List Contour) :
    segment_contours minArea cs =
      (cs.enum.filter fun p => contourKeptB minArea p.2).map buildContourObj := by
  rw [segment_contours, ← filterMap_if_eq_filter_map]
  refine List.filterMap_congr ?_
  intro p _
  by_cases h1 : p.2.contourArea < (minArea : ℚ)
  · simp [contourKeptB, h1]
  · by_cases h2 : p.2.moments.m00 = 0
    · simp [contourKeptB, h1, h2]
    · simp [contourKeptB, h1, h2, buildContourObj]

/-- C10 counterexample: when only the last traced contour is dropped, the
surviving identifiers are 1 and 2 -- contiguous and starting at 1 -- even
though a contour was dropped, so a dropped contour does not force
non-contiguous identifiers. -/
theorem c10_counterexample :
    (extract_from_contours (segment_contours 500 [cTop, cTop, cSmall])).map
        FeatureRecord.id = [1, 2] ∧
    (segment_contours 500 [cTop, cTop, cSmall]).length <
      ([cTop, cTop, cSmall] : List Contour).length := by
  constructor
  · rw [segment_contours_eq_filter]
    norm_num [extract_from_contours, buildContourObj, List.map_map,
      List.enum, List.enumFrom, List.filter_cons, List.filter_nil,
      contourKeptB, cTop, cSmall]
  · rw [segment_contours_eq_filter]
    norm_num [List.enum, List.enumFrom, List.filter_cons, List.filter_nil,
      contourKeptB, cTop, cSmall]

/-- C10 amended: each contour-derived identifier is 1 plus the region index in
the raw traced list, so the identifiers are strictly increasing (hence unique)
along the output; dropping a contour that precedes a surviving one leaves a
gap, and the first identifier can exceed 1, but surviving identifiers need not
be non-contiguous when only trailing contours are dropped. -/
theorem c10_amended_contour_ids :
    (∀ (minArea : ℕ) (cs : List Contour),
      (extract_from_contours (segment_contours minArea cs)).map FeatureRecord.id =
        (cs.enum.filter fun p => contourKeptB minArea p.2).map (fun p => p.1 + 1) ∧
      ((extract_from_contours (segment_contours minArea cs)).map
        FeatureRecord.id).Pairwise (· < ·)) ∧
    (extract_from_contours (segment_contours 500 [cSmall, cTop])).map
      FeatureRecord.id = [2] := by
  have hids : ∀ (minArea : ℕ) (cs : List Contour),
      (extract_from_contours (segment_contours minArea cs)).map FeatureRecord.id =
        (cs.enum.filter fun p => contourKeptB minArea p.2).map (fun p => p.1 + 1) := by
    intro minArea cs
    rw [segment_contours_eq_filter]
    unfold extract_from_contours
    rw [List.map_map, List.map_map]
    rfl
  refine ⟨fun minArea cs => ⟨hids minArea cs, ?_⟩, ?_⟩
  · rw [hids]
    have hsub : List.Sublist
        ((cs.enum.filter fun p => contourKeptB minArea p.2).map fun p => p.1 + 1)
        (cs.enum.map fun p => p.1 + 1) :=
      (List.filter_sublist _).map _
    have henum : (cs.enum.map fun p : ℕ × Contour => p.1 + 1) =
        (List.range cs.length).map (· + 1) := by
      rw [← List.enum_map_fst cs, List.map_map]
      rfl
    rw [henum] at hsub
    have hpair : ((List.range cs.length).map (· + 1)).Pairwise (· < ·) :=
      (List.pairwise_lt_range cs.length).map _ (fun a b h => by omega)
    exact hpair.sublist hsub
  · rw [hids 500 [cSmall, cTop]]
    norm_num [List.enum, List.enumFrom, List.filter_cons, List.filter_nil,
      contourKeptB, cSmall, cTop]

end Tabletop
